import Mathlib

/-!
Verification of the coffee-shop storefront's cart, checkout and catalog logic.

Sources embedded here:
* `OrderSummary` / `CheckoutSummary` (frontend cart and checkout pages):
  shipping / tax / total computation over exact decimal arithmetic (ℚ).
* `cartReducer`, `addToCart`, `updateQuantity`, `removeFromCart`
  (frontend `CartContext.tsx`): the client-side cart cache.
* `validateForm` and `handleSubmit` (frontend checkout page): form
  validation against the email and ZIP regexes, and the order request body.
* The backend cart / order / catalog services are not present in the
  repository (only their README and the API document are), so those are
  modelled from the specification, as marked on each definition.
-/

namespace Coffee

/-! ## Order total computation (frontend `OrderSummary` / `CheckoutSummary`)

Embeds `const shipping = subtotal >= 75 ? 0 : 5.99`,
`const tax = subtotal * 0.0875`, `const total = subtotal + shipping + tax`.
Decimal literals are embedded as exact rationals. -/

/-- Shipping fee: `subtotal >= 75 ? 0 : 5.99`. -/
def shippingFee (subtotal : ℚ) : ℚ :=
  if 75 ≤ subtotal then 0 else 599 / 100

/-- Tax: `subtotal * 0.0875`. -/
def taxAmount (subtotal : ℚ) : ℚ :=
  subtotal * (875 / 10000)

/-- Total: `subtotal + shipping + tax`. -/
def orderTotal (subtotal : ℚ) : ℚ :=
  subtotal + shippingFee subtotal + taxAmount subtotal

/-! ## Client-side cart cache (frontend `CartContext.tsx`) -/

/-- One item of the server's cart snapshot (fields of the API's cart item
relevant to state equality; the `product` object is represented by the
product id it duplicates). -/
structure CartSnapshotItem where
  product_id : String
  quantity : Int
  subtotal : ℚ
deriving Repr, DecidableEq

/-- The server's cart snapshot as stored by the client. -/
structure CartSnapshot where
  cart_id : String
  items : List CartSnapshotItem
  total_items : Int
  subtotal : ℚ
deriving Repr, DecidableEq

/-- `CartContextState`: `{ cart: Cart | null, loading: boolean, error: string | null }`. -/
structure CartContextState where
  cart : Option CartSnapshot
  loading : Bool
  error : Option String
deriving Repr, DecidableEq

/-- `CartAction` of `cartReducer`. -/
inductive CartAction where
  | SET_LOADING (b : Bool)
  | SET_ERROR (e : Option String)
  | SET_CART (c : CartSnapshot)
  | CLEAR_CART
deriving Repr, DecidableEq

/-- `cartReducer` from `CartContext.tsx`, case by case. -/
def cartReducer (state : CartContextState) (action : CartAction) : CartContextState :=
  match action with
  | .SET_LOADING b => { state with loading := b }
  | .SET_ERROR e => { state with error := e, loading := false }
  | .SET_CART c => { state with cart := some c, loading := false, error := none }
  | .CLEAR_CART => { state with cart := none }

/-- Outcome of a remote cart API call as seen by the client. -/
inductive ApiOutcome where
  | ok (c : CartSnapshot)
  | err (msg : String)
deriving Repr, DecidableEq

/-- The shared shape of every mutation in `CartContext.tsx`: dispatch
`SET_LOADING true`, run the remote call, then dispatch `SET_CART` with the
returned snapshot on success or `SET_ERROR` with a message on failure. -/
def runMutation (s : CartContextState) (r : ApiOutcome) : CartContextState :=
  let s1 := cartReducer s (.SET_LOADING true)
  match r with
  | .ok c => cartReducer s1 (.SET_CART c)
  | .err m => cartReducer s1 (.SET_ERROR (some m))

/-- `addToCart` from `CartContext.tsx`: `if (quantity <= 0) return` before any
dispatch or API call, else the common mutation flow. The `Bool` component
records whether the remote call was issued. -/
def addToCart (s : CartContextState) (_productId : String) (quantity : Int)
    (r : ApiOutcome) : CartContextState × Bool :=
  if quantity ≤ 0 then (s, false)
  else (runMutation s r, true)

/-- `removeFromCart` from `CartContext.tsx`: always the common mutation flow. -/
def removeFromCart (s : CartContextState) (r : ApiOutcome) : CartContextState × Bool :=
  (runMutation s r, true)

/-- `updateQuantity` from `CartContext.tsx`: delegates to `removeFromCart`
when `quantity <= 0`, else the common mutation flow via the PUT call. -/
def updateQuantity (s : CartContextState) (quantity : Int)
    (r : ApiOutcome) : CartContextState × Bool :=
  if quantity ≤ 0 then removeFromCart s r
  else (runMutation s r, true)

/-! ## Checkout form validation (frontend checkout page, `validateForm`) -/

/-- The checkout page's `formData` state. -/
structure CheckoutForm where
  email : String
  phone : String
  name : String
  street : String
  city : String
  state : String
  zip : String
  cardNumber : String
  cardholderName : String
  expiryDate : String
  securityCode : String
  billingSameAsShipping : Bool
deriving Repr, DecidableEq

/-- The ECMAScript regex class `\s`:
`[\t\n\v\f\r \u00A0\u1680\u2000-\u200A\u2028\u2029\u202F\u205F\u3000\uFEFF]`. -/
def isJsWhitespace (c : Char) : Bool :=
  c = '\t' || c = '\n' || c = '\x0b' || c = '\x0c' || c = '\r' || c = ' ' ||
  c = '\u00A0' || c = '\u1680' || ('\u2000' ≤ c && c ≤ '\u200A') ||
  c = '\u2028' || c = '\u2029' || c = '\u202F' || c = '\u205F' ||
  c = '\u3000' || c = '\uFEFF'

/-- A character admitted by the regex class `[^\s@]`. -/
def isEmailAtomChar (c : Char) : Bool :=
  !(isJsWhitespace c) && c != '@'

/-- Executable matcher for the checkout page's email regex
`/^[^\s@]+@[^\s@]+\.[^\s@]+$/` on a character list: split at the first `@`,
then demand a non-empty all-atom local part, an all-atom remainder, and a
dot strictly inside the remainder. -/
def emailMatchChars (cs : List Char) : Bool :=
  let a := cs.takeWhile (fun c => c != '@')
  match cs.dropWhile (fun c => c != '@') with
  | [] => false
  | _ :: b =>
      !a.isEmpty && a.all isEmailAtomChar && b.all isEmailAtomChar &&
        ((b.drop 1).dropLast.contains '.')

/-- The email regex applied to a string. -/
def emailRegexAccepts (s : String) : Bool :=
  emailMatchChars s.toList

/-- Declarative semantics of `/^[^\s@]+@[^\s@]+\.[^\s@]+$/`: the string
decomposes as `a ++ "@" ++ b1 ++ "." ++ b2` with `a`, `b1`, `b2` non-empty
lists of `[^\s@]` characters. -/
def EmailRegexMatch (cs : List Char) : Prop :=
  ∃ a b1 b2 : List Char,
    cs = a ++ '@' :: (b1 ++ '.' :: b2) ∧
    a ≠ [] ∧ b1 ≠ [] ∧ b2 ≠ [] ∧
    (∀ c ∈ a, isEmailAtomChar c = true) ∧
    (∀ c ∈ b1, isEmailAtomChar c = true) ∧
    (∀ c ∈ b2, isEmailAtomChar c = true)

/-- Executable matcher for the checkout page's ZIP regex
`/^\d{5}(-\d{4})?$/` on a character list. -/
def zipMatchChars (cs : List Char) : Bool :=
  (cs.length == 5 && cs.all Char.isDigit) ||
    (cs.length == 10 && (cs.take 5).all Char.isDigit &&
      (cs.drop 5).head? == some '-' && (cs.drop 6).all Char.isDigit)

/-- The ZIP regex applied to a string. -/
def zipRegexAccepts (s : String) : Bool :=
  zipMatchChars s.toList

/-- Declarative semantics of `/^\d{5}(-\d{4})?$/`: five digits, optionally
followed by `-` and four more digits. -/
def ZipRegexMatch (cs : List Char) : Prop :=
  (cs.length = 5 ∧ ∀ c ∈ cs, c.isDigit = true) ∨
    (∃ a b : List Char, cs = a ++ '-' :: b ∧ a.length = 5 ∧ b.length = 4 ∧
      (∀ c ∈ a, c.isDigit = true) ∧ (∀ c ∈ b, c.isDigit = true))

/-- The error record built by `validateForm`, in source order: one entry per
failing check, keyed by the field name. (JS string truthiness: a "missing"
field is the empty string.) -/
def validateFormErrors (f : CheckoutForm) : List (String × String) :=
  (if f.email = "" then [("email", "Email is required")] else []) ++
  (if f.name = "" then [("name", "Full name is required")] else []) ++
  (if f.street = "" then [("street", "Street address is required")] else []) ++
  (if f.city = "" then [("city", "City is required")] else []) ++
  (if f.state = "" then [("state", "State is required")] else []) ++
  (if f.zip = "" then [("zip", "ZIP code is required")] else []) ++
  (if f.cardNumber = "" then [("cardNumber", "Card number is required")] else []) ++
  (if f.cardholderName = "" then [("cardholderName", "Cardholder name is required")] else []) ++
  (if f.expiryDate = "" then [("expiryDate", "Expiry date is required")] else []) ++
  (if f.securityCode = "" then [("securityCode", "Security code is required")] else []) ++
  (if f.email ≠ "" ∧ emailRegexAccepts f.email = false then
    [("email", "Please enter a valid email address")] else []) ++
  (if f.zip ≠ "" ∧ zipRegexAccepts f.zip = false then
    [("zip", "Please enter a valid ZIP code")] else [])

/-- `validateForm`: true iff no error was recorded
(`Object.keys(newErrors).length === 0`). -/
def validateForm (f : CheckoutForm) : Bool :=
  (validateFormErrors f).isEmpty

/-! ## Order request built by `handleSubmit` (frontend checkout page) -/

/-- `shipping_address` of the request body. -/
structure ShippingAddress where
  street : String
  city : String
  state : String
  zip : String
deriving Repr, DecidableEq

/-- `customer_info` of the request body. -/
structure CustomerInfo where
  name : String
  email : String
  phone : String
  shipping_address : ShippingAddress
deriving Repr, DecidableEq

/-- `payment_info` of the request body. -/
structure PaymentInfo where
  method : String
  last_four : String
deriving Repr, DecidableEq

/-- Body of `POST /api/orders` as assembled by `handleSubmit`. -/
structure OrderRequest where
  customer_info : CustomerInfo
  payment_info : PaymentInfo
deriving Repr, DecidableEq

/-- JavaScript `str.slice(-4)`: the last four characters, or the whole
string when it is shorter. -/
def sliceLastFour (s : String) : String :=
  ⟨s.toList.drop (s.toList.length - 4)⟩

/-- The `customerInfo` object built in `handleSubmit`. -/
def buildCustomerInfo (f : CheckoutForm) : CustomerInfo :=
  { name := f.name
    email := f.email
    phone := f.phone
    shipping_address :=
      { street := f.street, city := f.city, state := f.state, zip := f.zip } }

/-- The `paymentInfo` object built in `handleSubmit`:
`{ method: 'credit_card', last_four: formData.cardNumber.slice(-4) }`. -/
def buildPaymentInfo (f : CheckoutForm) : PaymentInfo :=
  { method := "credit_card", last_four := sliceLastFour f.cardNumber }

/-- The full request body sent by `ordersApi.createOrder`. -/
def buildOrderRequest (f : CheckoutForm) : OrderRequest :=
  { customer_info := buildCustomerInfo f, payment_info := buildPaymentInfo f }

/-! ## Backend cart service

Modelled from the spec: the backend implementation
(`backend/app/services/cart_service.py` and the cart endpoints) is not in
the repository; only §4.2 of the specification and the API document
describe it. A session's cart is its ordered entry list. -/

/-- Cart-service failures (§7): unknown product, or non-positive quantity. -/
inductive CartError where
  | NotFound
  | InvalidQuantity
deriving Repr, DecidableEq

/-- Modelled from the spec: a `CartEntry` (§3), a product reference with a
quantity. -/
structure CartEntry where
  productId : String
  quantity : Int
deriving Repr, DecidableEq

/-- Modelled from the spec: `addItem(sessionId, productId, quantity)` (§4.2)
on the session's entry list. Fails with `NotFound` for an unknown product and
`InvalidQuantity` for `quantity ≤ 0`; increments an existing entry's quantity,
otherwise appends a new entry at the end. -/
def addItem (known : List String) (entries : List CartEntry) (pid : String)
    (q : Int) : Except CartError (List CartEntry) :=
  if !known.contains pid then .error .NotFound
  else if q ≤ 0 then .error .InvalidQuantity
  else if entries.any (fun e => e.productId == pid) then
    .ok (entries.map (fun e =>
      if e.productId == pid then { e with quantity := e.quantity + q } else e))
  else .ok (entries ++ [{ productId := pid, quantity := q }])

/-- Modelled from the spec: `removeItem(sessionId, productId)` (§4.2),
idempotent and total — the entry for the product, if any, is dropped. -/
def removeItem (entries : List CartEntry) (pid : String) : List CartEntry :=
  entries.filter (fun e => e.productId != pid)

/-- Modelled from the spec: `setQuantity(sessionId, productId, quantity)`
(§4.2). Fails with `NotFound` when the product is not in the cart; behaves as
`removeItem` for `quantity ≤ 0`; otherwise replaces the quantity exactly. -/
def setQuantity (entries : List CartEntry) (pid : String)
    (q : Int) : Except CartError (List CartEntry) :=
  if !entries.any (fun e => e.productId == pid) then .error .NotFound
  else if q ≤ 0 then .ok (removeItem entries pid)
  else .ok (entries.map (fun e =>
    if e.productId == pid then { e with quantity := q } else e))

/-! ## Backend order service

Modelled from the spec: the backend implementation
(`backend/app/services/order_service.py`) is not in the repository; §4.3 of
the specification and the API document describe it. -/

/-- Order-service failures (§4.3). -/
inductive OrderError where
  | EmptyCart
  | ValidationError
deriving Repr, DecidableEq

/-- Order status (§3); the reference implementation only produces `pending`. -/
inductive OrderStatus where
  | pending
  | processing
  | shipped
  | delivered
deriving Repr, DecidableEq

/-- Modelled from the spec: an `OrderLine` (§3), capturing the product's
name and price at order time. -/
structure OrderLine where
  productId : String
  productName : String
  quantity : Int
  unitPrice : ℚ
  lineSubtotal : ℚ
deriving Repr, DecidableEq

/-- Modelled from the spec: an `Order` record (§3). -/
structure OrderRecord where
  id : String
  lines : List OrderLine
  customer : CustomerInfo
  subtotal : ℚ
  tax : ℚ
  shipping : ℚ
  total : ℚ
  status : OrderStatus
  trackingNumber : Option String
deriving Repr, DecidableEq

/-- Modelled from the spec: the cart subtotal, `Σ quantity × product.price`
(§3), with the catalog's price given as a map from product id. -/
def cartSubtotal (entries : List CartEntry) (price : String → ℚ) : ℚ :=
  entries.foldl (fun acc e => acc + (e.quantity : ℚ) * price e.productId) 0

/-- Modelled from the spec: `createOrder(sessionId, customerInfo,
paymentInfo)` (§4.3) against the session's entries and the order store.
Fails with `EmptyCart` on zero entries and with `ValidationError` on invalid
customer data, leaving the store unchanged; otherwise snapshots the cart into
an immutable order appended to the store. The result pairs the call's outcome
with the order store after the call. -/
def createOrder (entries : List CartEntry) (price : String → ℚ)
    (productName : String → String) (customer : CustomerInfo)
    (customerValid : Bool) (store : List OrderRecord) (newId : String) :
    Except OrderError OrderRecord × List OrderRecord :=
  if entries.isEmpty then (.error .EmptyCart, store)
  else if !customerValid then (.error .ValidationError, store)
  else
    let sub := cartSubtotal entries price
    let order : OrderRecord :=
      { id := newId
        lines := entries.map (fun e =>
          { productId := e.productId
            productName := productName e.productId
            quantity := e.quantity
            unitPrice := price e.productId
            lineSubtotal := (e.quantity : ℚ) * price e.productId })
        customer := customer
        subtotal := sub
        tax := taxAmount sub
        shipping := shippingFee sub
        total := sub + shippingFee sub + taxAmount sub
        status := .pending
        trackingNumber := none }
    (.ok order, store ++ [order])

/-! ## Backend catalog service

Modelled from the spec: the backend implementation
(`backend/app/api/endpoints/products.py`) is not in the repository; §4.1 of
the specification and the API document (`per_page` default 12, max 50,
`page` default 1) describe it. -/

/-- Product fields relevant to the catalog service (§3). -/
structure Product where
  id : String
  name : String
  price : ℚ
  category : String
  roastLevel : String
  origin : String
  inStock : Bool
deriving Repr, DecidableEq

/-- Result of `listProducts` (§4.1): the page slice, the pre-pagination
count of matching products, and the effective paging parameters. -/
structure ProductListResult where
  products : List Product
  total : Nat
  page : Nat
  perPage : Nat
deriving Repr, DecidableEq

/-- Modelled from the spec: `listProducts(filter?, page, perPage)` (§4.1).
`perPage` defaults to 12 and is clamped to 50, `page` defaults to 1; the
category filter is an exact match; an out-of-range page yields an empty
slice, not an error. -/
def listProducts (products : List Product) (category : Option String)
    (page perPage : Option Nat) : ProductListResult :=
  let pp := min (perPage.getD 12) 50
  let pg := page.getD 1
  let matching := match category with
    | none => products
    | some c => products.filter (fun p => p.category == c)
  { products := (matching.drop ((pg - 1) * pp)).take pp
    total := matching.length
    page := pg
    perPage := pp }

/-! ## Theorems -/

/-- C1: for every cart subtotal `s`, the order computation yields
`shipping = 0` if `s ≥ 75` and `shipping = 5.99` otherwise,
`tax = s × 0.0875`, and `total = s + shipping + tax`; in particular
`s = 50.00` gives shipping `5.99`, tax `4.375`, total `60.365`, and
`s = 80.00` gives shipping `0`, tax `7.00`, total `87.00`. -/
theorem orderComputation_correct :
    (∀ s : ℚ, 75 ≤ s → shippingFee s = 0) ∧
    (∀ s : ℚ, s < 75 → shippingFee s = 599 / 100) ∧
    (∀ s : ℚ, taxAmount s = s * (875 / 10000)) ∧
    (∀ s : ℚ, orderTotal s = s + shippingFee s + taxAmount s) ∧
    shippingFee 50 = 599 / 100 ∧ taxAmount 50 = 4375 / 1000 ∧
    orderTotal 50 = 60365 / 1000 ∧
    shippingFee 80 = 0 ∧ taxAmount 80 = 7 ∧ orderTotal 80 = 87 := by
  refine ⟨?_, ?_, fun s => rfl, fun s => rfl, ?_, ?_, ?_, ?_, ?_, ?_⟩
  · intro s hs
    simp [shippingFee, hs]
  · intro s hs
    simp [shippingFee, not_le.mpr hs]
  all_goals norm_num [shippingFee, taxAmount, orderTotal]

/-- Witness for C1 at the concrete subtotals 80 and 50. -/
theorem orderComputation_correct_witness :
    ((75 : ℚ) ≤ 80 ∧ shippingFee 80 = 0) ∧
      ((50 : ℚ) < 75 ∧ shippingFee 50 = 599 / 100) :=
  ⟨⟨by norm_num, orderComputation_correct.1 80 (by norm_num)⟩,
   ⟨by norm_num, orderComputation_correct.2.1 50 (by norm_num)⟩⟩

/-- C7: every cart mutation of the client cache (add / update / remove), on
success, replaces the whole cached cart with the server's snapshot and
clears the error; on failure it sets the error message and leaves the cached
cart exactly as it was. -/
theorem cartCache_mutation_frame :
    ∀ (s : CartContextState) (pid : String) (q : Int) (c : CartSnapshot)
      (m : String),
      (0 < q → (addToCart s pid q (.ok c)).1 =
        { cart := some c, loading := false, error := none }) ∧
      (0 < q → (addToCart s pid q (.err m)).1.cart = s.cart ∧
        (addToCart s pid q (.err m)).1.error = some m) ∧
      (updateQuantity s q (.ok c)).1 =
        { cart := some c, loading := false, error := none } ∧
      ((updateQuantity s q (.err m)).1.cart = s.cart ∧
        (updateQuantity s q (.err m)).1.error = some m) ∧
      (removeFromCart s (.ok c)).1 =
        { cart := some c, loading := false, error := none } ∧
      ((removeFromCart s (.err m)).1.cart = s.cart ∧
        (removeFromCart s (.err m)).1.error = some m) := by
  intro s pid q c m
  refine ⟨fun hq => ?_, fun hq => ?_, ?_, ?_, ?_, ?_⟩ <;>
    simp [addToCart, updateQuantity, removeFromCart, runMutation, cartReducer,
      not_le.mpr, *]

/-- Witness for C7 at a concrete state, snapshot and message. -/
theorem cartCache_mutation_frame_witness :
    (0 : Int) < 1 ∧
      (addToCart { cart := none, loading := false, error := none } "p1" 1
        (.ok { cart_id := "c", items := [], total_items := 0, subtotal := 0 })).1 =
      { cart := some { cart_id := "c", items := [], total_items := 0, subtotal := 0 },
        loading := false, error := none } :=
  ⟨by norm_num,
    (cartCache_mutation_frame { cart := none, loading := false, error := none }
      "p1" 1 { cart_id := "c", items := [], total_items := 0, subtotal := 0 }
      "boom").1 (by norm_num)⟩

/-- C9: `addToCart` with a non-positive quantity is a silent no-op — it
returns before issuing the API call (second component `false`) and the whole
cache state is unchanged. -/
theorem addToCart_nonpositive_noop :
    ∀ (s : CartContextState) (pid : String) (q : Int) (r : ApiOutcome),
      q ≤ 0 → addToCart s pid q r = (s, false) := by
  intro s pid q r h
  simp [addToCart, h]

/-- Witness for C9 at quantity 0. -/
theorem addToCart_nonpositive_noop_witness :
    (0 : Int) ≤ 0 ∧
      addToCart { cart := none, loading := false, error := none } "p1" 0
        (.err "InvalidQuantity") =
      ({ cart := none, loading := false, error := none }, false) :=
  ⟨le_refl 0,
    addToCart_nonpositive_noop { cart := none, loading := false, error := none }
      "p1" 0 (.err "InvalidQuantity") (le_refl 0)⟩

/-- C10: the order request contains, as payment information, only the
literal method string and the last four characters of the card number; two
form states that agree on everything except the non-final card-number
characters, the expiry date and the security code produce identical request
bodies. -/
theorem orderRequest_payment_minimal :
    (∀ f : CheckoutForm, (buildOrderRequest f).payment_info =
      { method := "credit_card", last_four := sliceLastFour f.cardNumber }) ∧
    ∀ f1 f2 : CheckoutForm,
      f1.email = f2.email → f1.phone = f2.phone → f1.name = f2.name →
      f1.street = f2.street → f1.city = f2.city → f1.state = f2.state →
      f1.zip = f2.zip → f1.cardholderName = f2.cardholderName →
      f1.billingSameAsShipping = f2.billingSameAsShipping →
      sliceLastFour f1.cardNumber = sliceLastFour f2.cardNumber →
      buildOrderRequest f1 = buildOrderRequest f2 := by
  constructor
  · intro f
    rfl
  · intro f1 f2 h1 h2 h3 h4 h5 h6 h7 h8 h9 h10
    simp [buildOrderRequest, buildCustomerInfo, buildPaymentInfo,
      h1, h2, h3, h4, h5, h6, h7, h10]

/-- Witness for C10: two concrete forms differing in the leading card-number
digits, the expiry date and the security code yield the same request. -/
theorem orderRequest_payment_minimal_witness :
    buildOrderRequest
      { email := "a@b.co", phone := "", name := "Sam", street := "1 Main St",
        city := "Newark", state := "NJ", zip := "07001",
        cardNumber := "1111222233334444", cardholderName := "Sam",
        expiryDate := "12/27", securityCode := "123",
        billingSameAsShipping := true } =
    buildOrderRequest
      { email := "a@b.co", phone := "", name := "Sam", street := "1 Main St",
        city := "Newark", state := "NJ", zip := "07001",
        cardNumber := "9999888877774444", cardholderName := "Sam",
        expiryDate := "01/30", securityCode := "999",
        billingSameAsShipping := true } :=
  orderRequest_payment_minimal.2 _ _ rfl rfl rfl rfl rfl rfl rfl rfl rfl
    (by decide)

/-- Helper: an entry-wise update keyed by a product id absent from the list
leaves the list unchanged. -/
theorem map_update_eq_self (entries : List CartEntry) (pid : String)
    (f : CartEntry → CartEntry)
    (h : entries.all (fun e => e.productId != pid) = true) :
    entries.map (fun e => if e.productId == pid then f e else e) = entries := by
  induction entries with
  | nil => rfl
  | cons e es ih =>
    simp only [List.all_cons, Bool.and_eq_true] at h
    have hne : (e.productId == pid) = false := by
      cases hb : e.productId == pid
      · rfl
      · exfalso
        have := h.1
        simp [bne, hb] at this
    simp only [List.map_cons, hne, Bool.false_eq_true, if_false, ih h.2]

/-- Helper: no entry of a list all of whose product ids differ from `pid`
tests equal to `pid`. -/
theorem any_beq_eq_false (entries : List CartEntry) (pid : String)
    (h : entries.all (fun e => e.productId != pid) = true) :
    entries.any (fun e => e.productId == pid) = false := by
  simp only [List.all_eq_true, bne_iff_ne, ne_eq] at h
  simp only [List.any_eq_false]
  intro e he
  simpa using h e he

/-- C2: `addItem` on a product already in the cart increments that entry's
quantity in place (it does not replace it), so two `addItem` calls with the
same product and quantities `q1`, `q2` leave exactly one entry for it, with
quantity `q1 + q2`; a product not yet in the cart is appended at the end,
preserving insertion order. -/
theorem addItem_increments :
    ∀ (known : List String) (entries : List CartEntry) (pid : String)
      (q1 q2 : Int),
      known.contains pid = true → 0 < q1 → 0 < q2 →
      entries.all (fun e => e.productId != pid) = true →
      addItem known entries pid q1 =
        Except.ok (entries ++ [{ productId := pid, quantity := q1 }]) ∧
      addItem known (entries ++ [{ productId := pid, quantity := q1 }]) pid q2 =
        Except.ok (entries ++ [{ productId := pid, quantity := q1 + q2 }]) ∧
      (entries ++ [({ productId := pid, quantity := q1 + q2 } : CartEntry)]).filter
          (fun e => e.productId == pid) =
        [{ productId := pid, quantity := q1 + q2 }] := by
  intro known entries pid q1 q2 hk hq1 hq2 habs
  have hk' : pid ∈ known := by simpa using hk
  have hany := any_beq_eq_false entries pid habs
  have habs' : ∀ e ∈ entries, (e.productId == pid) = false := by
    intro e he
    cases hb : e.productId == pid
    · rfl
    · exfalso
      simp only [List.all_eq_true] at habs
      have := habs e he
      simp [bne, hb] at this
  refine ⟨?_, ?_, ?_⟩
  · simp [addItem, hk', not_le.mpr hq1, hany]
  · have hanyl : ((entries ++ [({ productId := pid, quantity := q1 } : CartEntry)]).any
        (fun e => e.productId == pid)) = true := by
      simp [List.any_append]
    simp only [addItem]
    rw [if_neg (by simp [hk']), if_neg (not_le.mpr hq2), if_pos hanyl,
      List.map_append, map_update_eq_self entries pid _ habs]
    simp
  · rw [List.filter_append, List.filter_eq_nil_iff.mpr
      (by intro e he; simp [habs' e he]), List.nil_append]
    simp

/-- Witness for C2 on an empty cart with `q1 = 2`, `q2 = 3`. -/
theorem addItem_increments_witness :
    (["p1"].contains "p1" = true ∧ (0 : Int) < 2 ∧ (0 : Int) < 3) ∧
      addItem ["p1"] [] "p1" 2 =
        Except.ok [{ productId := "p1", quantity := 2 }] ∧
      addItem ["p1"] [({ productId := "p1", quantity := 2 } : CartEntry)] "p1" 3 =
        Except.ok [{ productId := "p1", quantity := 5 }] :=
  ⟨⟨by decide, by decide, by decide⟩,
    by
      have h := addItem_increments ["p1"] [] "p1" 2 3 (by decide) (by decide)
        (by decide) (by decide)
      exact ⟨h.1, h.2.1⟩⟩

/-- C3: for a product currently in the cart, `setQuantity` with `q ≤ 0` is
exactly `removeItem` (and the product is absent from the resulting cart,
which is what a subsequent `getCart` returns), while `setQuantity` with
`q > 0` sets that entry's quantity to exactly `q`, not additively, leaving
every other entry as it was. -/
theorem setQuantity_replaces_or_removes :
    ∀ (entries : List CartEntry) (pid : String) (q : Int),
      entries.any (fun e => e.productId == pid) = true →
      (q ≤ 0 →
        setQuantity entries pid q = .ok (removeItem entries pid) ∧
        (removeItem entries pid).all (fun e => e.productId != pid) = true) ∧
      (0 < q →
        ∃ c, setQuantity entries pid q = .ok c ∧
          c.length = entries.length ∧
          (∀ e ∈ c, e.productId = pid → e.quantity = q) ∧
          (∀ e ∈ c, e.productId ≠ pid → e ∈ entries)) := by
  intro entries pid q hmem
  constructor
  · intro hq
    refine ⟨by simp [setQuantity, hmem, hq], ?_⟩
    simp only [removeItem, List.all_eq_true]
    intro e he
    exact (List.mem_filter.mp he).2
  · intro hq
    refine ⟨entries.map (fun e =>
      if e.productId == pid then { e with quantity := q } else e),
      by simp [setQuantity, hmem, not_le.mpr hq], by simp, ?_, ?_⟩
    · intro e he hpid
      obtain ⟨x, hx, hxe⟩ := List.mem_map.mp he
      by_cases hb : (x.productId == pid) = true
      · rw [if_pos hb] at hxe
        simp [← hxe]
      · rw [if_neg (by simp [hb])] at hxe
        subst hxe
        exact absurd hpid (by simpa using hb)
    · intro e he hne
      obtain ⟨x, hx, hxe⟩ := List.mem_map.mp he
      by_cases hb : (x.productId == pid) = true
      · rw [if_pos hb] at hxe
        subst hxe
        simp only [beq_iff_eq] at hb
        exact absurd hb hne
      · rw [if_neg (by simp [hb])] at hxe
        subst hxe
        exact hx

/-- Witness for C3 at a one-entry cart, with `q = 0` and `q = 7`. -/
theorem setQuantity_replaces_or_removes_witness :
    (([({ productId := "p1", quantity := 2 } : CartEntry)]).any
        (fun e => e.productId == "p1") = true ∧ (0 : Int) ≤ 0) ∧
      setQuantity [({ productId := "p1", quantity := 2 } : CartEntry)] "p1" 0 =
        Except.ok (removeItem [{ productId := "p1", quantity := 2 }] "p1") ∧
      (removeItem [({ productId := "p1", quantity := 2 } : CartEntry)] "p1").all
        (fun e => e.productId != "p1") = true :=
  ⟨⟨by decide, by decide⟩,
    by
      have h := (setQuantity_replaces_or_removes
        [{ productId := "p1", quantity := 2 }] "p1" 0 (by decide)).1 (by decide)
      exact ⟨h.1, h.2⟩⟩

/-- C4: `removeItem` is total (it never fails): on a product absent from the
cart it returns the cart unchanged, and applying it twice equals applying it
once. -/
theorem removeItem_idempotent :
    ∀ (entries : List CartEntry) (pid : String),
      (entries.all (fun e => e.productId != pid) = true →
        removeItem entries pid = entries) ∧
      removeItem (removeItem entries pid) pid = removeItem entries pid := by
  intro entries pid
  constructor
  · intro h
    simp only [List.all_eq_true] at h
    exact List.filter_eq_self.mpr h
  · simp [removeItem, List.filter_filter]

/-- Witness for C4 on a cart not containing the removed product. -/
theorem removeItem_idempotent_witness :
    (([({ productId := "p1", quantity := 2 } : CartEntry)]).all
        (fun e => e.productId != "p9") = true) ∧
      removeItem [({ productId := "p1", quantity := 2 } : CartEntry)] "p9" =
        [{ productId := "p1", quantity := 2 }] :=
  ⟨by decide,
    (removeItem_idempotent [{ productId := "p1", quantity := 2 }] "p9").1
      (by decide)⟩

/-- C5: `createOrder` on a session whose cart has zero entries fails with
`EmptyCart` and leaves the order store unchanged — no order record is
created by the failed call. -/
theorem createOrder_emptyCart :
    ∀ (entries : List CartEntry) (price : String → ℚ)
      (productName : String → String) (customer : CustomerInfo) (v : Bool)
      (store : List OrderRecord) (newId : String),
      entries = [] →
      createOrder entries price productName customer v store newId =
        (.error .EmptyCart, store) := by
  intro entries price productName customer v store newId h
  subst h
  rfl

/-- Witness for C5 at a concrete empty cart and order store. -/
theorem createOrder_emptyCart_witness :
    ([] : List CartEntry) = [] ∧
      createOrder [] (fun _ => 0) (fun _ => "")
        { name := "Sam", email := "a@b.co", phone := "",
          shipping_address :=
            { street := "1 Main St", city := "Newark", state := "NJ",
              zip := "07001" } }
        true [] "order-1" =
      (.error .EmptyCart, []) :=
  ⟨rfl,
    createOrder_emptyCart [] (fun _ => 0) (fun _ => "")
      { name := "Sam", email := "a@b.co", phone := "",
        shipping_address :=
          { street := "1 Main St", city := "Newark", state := "NJ",
            zip := "07001" } }
      true [] "order-1" rfl⟩

/-- C6: `listProducts` returns at most `perPage` items, each matching the
category filter when one is supplied; `perPage` is clamped to a maximum of
50 and defaults to 12, `page` defaults to 1, and a page past the last
matching product yields an empty slice (the function is total, so no
error). -/
theorem listProducts_pagination :
    ∀ (ps : List Product) (cat : Option String) (pg pp : Option Nat),
      (listProducts ps cat pg pp).products.length ≤
        (listProducts ps cat pg pp).perPage ∧
      (∀ n, pp = some n → (listProducts ps cat pg pp).perPage = min n 50 ∧
        (listProducts ps cat pg pp).products.length ≤ n) ∧
      (pp = none → (listProducts ps cat pg pp).perPage = 12) ∧
      (pg = none → (listProducts ps cat pg pp).page = 1) ∧
      (∀ c p, cat = some c → p ∈ (listProducts ps cat pg pp).products →
        p.category = c) ∧
      ((listProducts ps cat pg pp).total ≤
          ((listProducts ps cat pg pp).page - 1) *
            (listProducts ps cat pg pp).perPage →
        (listProducts ps cat pg pp).products = []) := by
  intro ps cat pg pp
  refine ⟨?_, ?_, ?_, ?_, ?_, ?_⟩
  · simp only [listProducts]
    exact List.length_take_le _ _
  · intro n hn
    subst hn
    refine ⟨rfl, ?_⟩
    calc ((listProducts ps cat pg (some n)).products).length
        ≤ min n 50 := by
          simp only [listProducts]
          exact List.length_take_le _ _
      _ ≤ n := min_le_left _ _
  · intro h; subst h; rfl
  · intro h; subst h; rfl
  · intro c p hc hp
    subst hc
    simp only [listProducts] at hp
    have := List.mem_filter.mp
      (List.mem_of_mem_drop (List.mem_of_mem_take hp))
    simpa using this.2
  · intro h
    simp only [listProducts] at h ⊢
    rw [List.drop_eq_nil_of_le h, List.take_nil]

/-- Witness for C6: an out-of-range page on an empty catalog yields an
empty slice, with `perPage = some 10`, `page = some 99`. -/
theorem listProducts_pagination_witness :
    ((listProducts [] none (some 99) (some 10)).total ≤
        ((listProducts [] none (some 99) (some 10)).page - 1) *
          (listProducts [] none (some 99) (some 10)).perPage) ∧
      (listProducts [] none (some 99) (some 10)).products = [] :=
  ⟨by decide,
    (listProducts_pagination [] none (some 99) (some 10)).2.2.2.2.2
      (by decide)⟩

/-- Helper: the head of a non-empty `dropWhile` residue fails the
predicate. -/
theorem dropWhile_head_false {α : Type} (p : α → Bool) :
    ∀ (l : List α) (x : α) (xs : List α),
      l.dropWhile p = x :: xs → p x = false := by
  intro l
  induction l with
  | nil =>
    intro x xs h
    simp [List.dropWhile] at h
  | cons c cs ih =>
    intro x xs h
    rw [List.dropWhile_cons] at h
    by_cases hc : p c = true
    · rw [if_pos hc] at h
      exact ih x xs h
    · rw [if_neg hc] at h
      cases h
      simpa using hc

/-- Helper: `takeWhile` and `dropWhile` split `a ++ x :: rest` exactly at
`x` when every element of `a` passes the predicate and `x` fails it. -/
theorem takeWhile_dropWhile_split {α : Type} (p : α → Bool) (a : List α)
    (x : α) (rest : List α) (ha : ∀ c ∈ a, p c = true) (hx : p x = false) :
    (a ++ x :: rest).takeWhile p = a ∧
      (a ++ x :: rest).dropWhile p = x :: rest := by
  induction a with
  | nil =>
    refine ⟨?_, ?_⟩
    · simp [List.takeWhile_cons, hx]
    · simp [List.dropWhile_cons, hx]
  | cons c cs ih =>
    have hc : p c = true := ha c (List.mem_cons_self c cs)
    have ih' := ih (fun d hd => ha d (List.mem_cons_of_mem c hd))
    refine ⟨?_, ?_⟩
    · simp only [List.cons_append, List.takeWhile_cons, hc, if_true, ih'.1]
    · simp only [List.cons_append, List.dropWhile_cons, hc, if_true, ih'.2]

/-- Helper: an element occurs in a list with its first and last entries
removed exactly when the list splits around it with non-empty sides. -/
theorem mem_drop_one_dropLast_iff {α : Type} (x : α) (b : List α) :
    x ∈ (b.drop 1).dropLast ↔
      ∃ b1 b2 : List α, b = b1 ++ x :: b2 ∧ b1 ≠ [] ∧ b2 ≠ [] := by
  constructor
  · intro h
    obtain ⟨i, hi, hget⟩ := List.mem_iff_getElem.mp h
    have hlen : i < b.length - 2 := by
      have h1 := List.length_dropLast (b.drop 1)
      have h2 := List.length_drop 1 b
      omega
    have h1i : 1 + i < b.length := by omega
    have hi' : i < (b.drop 1).length := by
      have := List.length_dropLast (b.drop 1)
      omega
    have hbx : b[1 + i] = x := by
      have e1 : ((b.drop 1).dropLast)[i] = (b.drop 1)[i] :=
        List.getElem_dropLast (b.drop 1) i hi
      have e2 : (b.drop 1)[i] = b[1 + i] := List.getElem_drop b
      rw [e1, e2] at hget
      exact hget
    refine ⟨b.take (1 + i), b.drop (1 + i + 1), ?_, ?_, ?_⟩
    · conv_lhs => rw [← List.take_append_drop (1 + i) b]
      rw [List.drop_eq_getElem_cons h1i, hbx]
    · intro hnil
      have hlt : (b.take (1 + i)).length = 1 + i := by
        rw [List.length_take]
        omega
      rw [hnil] at hlt
      simp at hlt
      omega
    · intro hnil
      have hld : (b.drop (1 + i + 1)).length = b.length - (1 + i + 1) :=
        List.length_drop (1 + i + 1) b
      rw [hnil] at hld
      simp at hld
      omega
  · rintro ⟨b1, b2, rfl, hb1, hb2⟩
    obtain ⟨c, b1', rfl⟩ := List.exists_cons_of_ne_nil hb1
    have hdrop : ((c :: b1') ++ x :: b2).drop 1 = b1' ++ x :: b2 := by
      simp
    rw [hdrop, List.dropLast_append_of_ne_nil b1' (by simp),
      List.dropLast_cons_of_ne_nil hb2]
    simp

/-- Helper: the executable email matcher agrees with the declarative
semantics of `/^[^\s@]+@[^\s@]+\.[^\s@]+$/`. -/
theorem emailMatchChars_iff (cs : List Char) :
    emailMatchChars cs = true ↔ EmailRegexMatch cs := by
  constructor
  · intro h
    rcases hd : cs.dropWhile (fun c => c != '@') with _ | ⟨r, b⟩
    · rw [emailMatchChars, hd] at h
      simp at h
    · rw [emailMatchChars, hd] at h
      simp only [Bool.and_eq_true, Bool.not_eq_true', List.isEmpty_eq_false,
        List.all_eq_true] at h
      obtain ⟨⟨⟨hne, hall_a⟩, hall_b⟩, hdot⟩ := h
      have hr : r = '@' := by
        have := dropWhile_head_false _ cs r b hd
        simpa [bne] using this
      subst hr
      obtain ⟨b1, b2, hb, hb1, hb2⟩ :=
        (mem_drop_one_dropLast_iff '.' b).mp (by simpa using hdot)
      subst hb
      refine ⟨cs.takeWhile (fun c => c != '@'), b1, b2, ?_,
        hne, hb1, hb2, hall_a, ?_, ?_⟩
      · conv_lhs => rw [← List.takeWhile_append_dropWhile
          (fun c => c != '@') cs]
        rw [hd]
      · intro c hc
        exact hall_b c (by simp [hc])
      · intro c hc
        exact hall_b c (by simp [hc])
  · rintro ⟨a, b1, b2, rfl, ha, hb1, hb2, halla, hallb1, hallb2⟩
    have hsplit := takeWhile_dropWhile_split (fun c => c != '@') a '@'
      (b1 ++ '.' :: b2)
      (fun c hc => by
        have := halla c hc
        simp only [isEmailAtomChar, Bool.and_eq_true, bne_iff_ne, ne_eq]
          at this ⊢
        exact this.2)
      (by simp)
    rw [emailMatchChars, hsplit.2]
    simp only [hsplit.1, Bool.and_eq_true, Bool.not_eq_true',
      List.isEmpty_eq_false, List.all_eq_true]
    refine ⟨⟨⟨ha, halla⟩, ?_⟩, ?_⟩
    · intro c hc
      rcases List.mem_append.mp hc with hc1 | hc2
      · exact hallb1 c hc1
      · rcases List.mem_cons.mp hc2 with rfl | hc3
        · decide
        · exact hallb2 c hc3
    · have := (mem_drop_one_dropLast_iff '.' (b1 ++ '.' :: b2)).mpr
        ⟨b1, b2, rfl, hb1, hb2⟩
      simpa using this

/-- Helper: the executable ZIP matcher agrees with the declarative
semantics of `/^\d{5}(-\d{4})?$/`. -/
theorem zipMatchChars_iff (cs : List Char) :
    zipMatchChars cs = true ↔ ZipRegexMatch cs := by
  constructor
  · intro h
    rw [zipMatchChars] at h
    simp only [Bool.or_eq_true, Bool.and_eq_true, beq_iff_eq,
      List.all_eq_true] at h
    rcases h with ⟨h5, hdig⟩ | ⟨⟨⟨h10, hdig5⟩, hdash⟩, hdig4⟩
    · exact Or.inl ⟨h5, hdig⟩
    · refine Or.inr ⟨cs.take 5, cs.drop 6, ?_, ?_, ?_, hdig5, hdig4⟩
      · have h5lt : 5 < cs.length := by omega
        have hc5 : cs[5] = '-' := by
          have := List.head?_drop cs 5
          rw [hdash] at this
          have h5 := List.getElem?_eq_getElem h5lt
          rw [h5] at this
          exact (Option.some_inj.mp this.symm)
        conv_lhs => rw [← List.take_append_drop 5 cs]
        rw [List.drop_eq_getElem_cons h5lt, hc5]
      · rw [List.length_take]
        omega
      · rw [List.length_drop]
        omega
  · intro h
    rw [zipMatchChars]
    simp only [Bool.or_eq_true, Bool.and_eq_true, beq_iff_eq,
      List.all_eq_true]
    rcases h with ⟨h5, hdig⟩ | ⟨a, b, rfl, ha5, hb4, hadig, hbdig⟩
    · exact Or.inl ⟨h5, hdig⟩
    · refine Or.inr ⟨⟨⟨by simp [ha5, hb4], ?_⟩, ?_⟩, ?_⟩
      · intro c hc
        have htake : (a ++ '-' :: b).take 5 = a := by
          rw [← ha5]
          exact List.take_left a ('-' :: b)
        rw [htake] at hc
        exact hadig c hc
      · have hdrop : (a ++ '-' :: b).drop 5 = '-' :: b := by
          rw [← ha5]
          exact List.drop_left a ('-' :: b)
        rw [hdrop]
        rfl
      · intro c hc
        have hdrop : (a ++ '-' :: b).drop 6 = b := by
          have hdrop5 : (a ++ '-' :: b).drop 5 = '-' :: b := by
            rw [← ha5]
            exact List.drop_left a ('-' :: b)
          have : (a ++ '-' :: b).drop 6 = ((a ++ '-' :: b).drop 5).drop 1 := by
            rw [List.drop_drop]
          rw [this, hdrop5]
          simp
        rw [hdrop] at hc
        exact hbdig c hc

/-- Helper: a conditional singleton list is empty exactly when the
condition fails. -/
theorem ite_singleton_eq_nil_iff {α : Type} {c : Prop} [Decidable c] (x : α) :
    (if c then [x] else []) = ([] : List α) ↔ ¬c := by
  split
  · simp [*]
  · simp [*]

/-- C8: `validateForm` succeeds exactly when every required customer field
(email, name, street, city, state, zip, card number, cardholder name,
expiry date, security code) is non-empty, the email matches
`/^[^\s@]+@[^\s@]+\.[^\s@]+$/`, and the ZIP matches `/^\d{5}(-\d{4})?$/`;
equivalently it returns false iff some required field is missing or the
email or ZIP is malformed, which is the condition under which submission
stops instead of sending the order request. -/
theorem validateForm_iff :
    ∀ f : CheckoutForm,
      validateForm f = true ↔
        (f.email ≠ "" ∧ f.name ≠ "" ∧ f.street ≠ "" ∧ f.city ≠ "" ∧
         f.state ≠ "" ∧ f.zip ≠ "" ∧ f.cardNumber ≠ "" ∧
         f.cardholderName ≠ "" ∧ f.expiryDate ≠ "" ∧ f.securityCode ≠ "") ∧
        EmailRegexMatch f.email.toList ∧ ZipRegexMatch f.zip.toList := by
  intro f
  rw [validateForm, List.isEmpty_iff]
  simp only [validateFormErrors, List.append_eq_nil, ite_singleton_eq_nil_iff,
    and_assoc]
  constructor
  · rintro ⟨he, hn, hs, hc, hst, hz, hcn, hch, hex, hsc, hem, hzp⟩
    have hacc : emailRegexAccepts f.email = true := by
      cases hb : emailRegexAccepts f.email
      · exact absurd ⟨he, hb⟩ hem
      · rfl
    have hzacc : zipRegexAccepts f.zip = true := by
      cases hb : zipRegexAccepts f.zip
      · exact absurd ⟨hz, hb⟩ hzp
      · rfl
    simp only [emailRegexAccepts] at hacc
    simp only [zipRegexAccepts] at hzacc
    exact ⟨he, hn, hs, hc, hst, hz, hcn, hch, hex, hsc,
      (emailMatchChars_iff _).mp hacc, (zipMatchChars_iff _).mp hzacc⟩
  · rintro ⟨he, hn, hs, hc, hst, hz, hcn, hch, hex, hsc, hm, hzm⟩
    have hacc : emailRegexAccepts f.email = true := by
      simp only [emailRegexAccepts]
      exact (emailMatchChars_iff _).mpr hm
    have hzacc : zipRegexAccepts f.zip = true := by
      simp only [zipRegexAccepts]
      exact (zipMatchChars_iff _).mpr hzm
    refine ⟨he, hn, hs, hc, hst, hz, hcn, hch, hex, hsc, ?_, ?_⟩
    · rintro ⟨-, hfalse⟩
      rw [hacc] at hfalse
      cases hfalse
    · rintro ⟨-, hfalse⟩
      rw [hzacc] at hfalse
      cases hfalse

/-- Witness for C8: a concrete fully valid form passes validation, and
through the theorem the concrete email and ZIP satisfy the declarative
regex semantics. -/
theorem validateForm_iff_witness :
    EmailRegexMatch ("a@b.co".toList) ∧ ZipRegexMatch ("07001".toList) :=
  have h := (validateForm_iff
    { email := "a@b.co", phone := "", name := "Sam", street := "1 Main St",
      city := "Newark", state := "NJ", zip := "07001",
      cardNumber := "1111222233334444", cardholderName := "Sam",
      expiryDate := "12/27", securityCode := "123",
      billingSameAsShipping := true }).mp (by decide)
  ⟨h.2.1, h.2.2⟩

end Coffee
